import Mathlib

/-!
Verification development for the authentication and abuse-control core of the
tequipy backend.  The Lean definitions below are a shallow embedding of the
Python sources:

* `src/backend/src/infrastructure/auth/rate_limiter.py`   (`AuthRateLimiter`)
* `src/backend/src/infrastructure/auth/jwt_provider.py`   (`JWTProvider`)
* `src/backend/src/infrastructure/repositories/refresh_token_repository.py`
  (`RefreshTokenRepositoryImpl`)
* `src/backend/src/domain/services/auth_service.py`       (`AuthService`)

Timestamps are epoch seconds modelled as `Int`; user ids (UUIDs) are `String`;
sha256 digests and JWT strings stay abstract (`String`, with the digest
function a parameter).  Redis state is modelled per key: a sorted set of
timestamps (member `str(score)` equals its score, hence a `Finset Int`), a
failed-login counter and a lockout flag.  Fallible collaborators are explicit
parameters; exceptions are `Except` errors.
-/

namespace Tequipy

/-- Taxonomy from `src/domain/exceptions.py` (the two kinds the auth service
raises). -/
inductive DomainError where
  | validation (msg : String)
  | authentication (msg : String)
  deriving DecidableEq, Repr

/-! ## Rate limiter (`AuthRateLimiter`) -/

/-- `AuthRateLimiter.FAILED_LOGIN_THRESHOLD`. -/
def FAILED_LOGIN_THRESHOLD : Nat := 5

/-- `AuthRateLimiter.ACCOUNT_LOCKOUT_MINUTES`. -/
def ACCOUNT_LOCKOUT_MINUTES : Nat := 15

/-- Redis state for one sliding-window key: the sorted set of timestamps
(`zadd(key, \x7bstr(now): now\x7d)` makes the member determined by its score,
so a set of scores suffices) together with the key's TTL. -/
structure ZKeyState where
  entries : Finset Int
  ttl : Option Int
  deriving DecidableEq

/-- Redis `ZREMRANGEBYSCORE key lo hi`: drop every member whose score lies in
the closed interval `[lo, hi]`. -/
def zremrangebyscore (lo hi : Int) (s : Finset Int) : Finset Int :=
  s.filter (fun t => ¬ (lo ≤ t ∧ t ≤ hi))

/-- Redis `ZCARD`. -/
def zcard (s : Finset Int) : Nat := s.card

/-- Redis `ZADD key \x7bstr(now): now\x7d`. -/
def zadd (t : Int) (s : Finset Int) : Finset Int := insert t s

/-- Result triple of `AuthRateLimiter._check_rate_limit`:
`(is_allowed, remaining, reset_time)`.  `remaining` is `Int` because the
Python value `max(0, max_requests - count - 1)` is a plain int. -/
structure RateLimitResult where
  is_allowed : Bool
  remaining : Int
  reset_time : Int
  deriving DecidableEq, Repr

/-- `AuthRateLimiter._check_rate_limit(key, max_requests, window_seconds)`.

`reachable` says whether the pipelined store operations succeed; when they do
not, the `except Exception` branch runs, which calls `time.time()` a second
time (`now2`).  On success the four pipeline steps run atomically:
`zremrangebyscore(key, 0, now - window_seconds)`, `zcard`, `zadd`,
`expire(key, window_seconds)`, and the call returns
`(count < max_requests, max(0, max_requests - count - 1),
int(now + window_seconds))`. -/
def check_rate_limit (reachable : Bool) (st : ZKeyState) (now : Int)
    (max_requests : Nat) (window_seconds : Int) (now2 : Int) :
    ZKeyState × RateLimitResult :=
  if reachable then
    let pruned := zremrangebyscore 0 (now - window_seconds) st.entries
    let count := zcard pruned
    let added := zadd now pruned
    let st' : ZKeyState := { entries := added, ttl := some window_seconds }
    (st',
     { is_allowed := decide (count < max_requests)
       remaining := max 0 ((max_requests : Int) - (count : Int) - 1)
       reset_time := now + window_seconds })
  else
    (st, { is_allowed := true
           remaining := (max_requests : Int)
           reset_time := now2 + window_seconds })

/-- Redis state for one identity's lockout bookkeeping:
`auth:failed_login:<uid>` (absent key = counter 0, `INCR` semantics) with its
TTL, and `auth:locked:<uid>` as value-with-remaining-TTL when present. -/
structure LockoutStore where
  failedCount : Nat
  failedTTL : Option Int
  lockout : Option (String × Int)
  deriving DecidableEq, Repr

/-- `AuthRateLimiter.record_failed_login`: `INCR` the counter, `EXPIRE` it to
3600 s, and when the incremented count reaches the threshold `SETEX` the
lockout flag to `"locked"` for `ACCOUNT_LOCKOUT_MINUTES * 60` seconds.
Returns `(failed_count, should_lock)`. -/
def record_failed_login (st : LockoutStore) : LockoutStore × (Nat × Bool) :=
  let failed_count := st.failedCount + 1
  let should_lock := decide (FAILED_LOGIN_THRESHOLD ≤ failed_count)
  let st1 : LockoutStore :=
    { st with failedCount := failed_count, failedTTL := some 3600 }
  let st2 : LockoutStore :=
    if should_lock then
      { st1 with lockout := some ("locked", (ACCOUNT_LOCKOUT_MINUTES : Int) * 60) }
    else st1
  (st2, (failed_count, should_lock))

/-- `AuthRateLimiter.reset_failed_login`: `DELETE` the failed-login counter
key (an absent key reads as count 0 with no TTL). -/
def reset_failed_login (st : LockoutStore) : LockoutStore :=
  { st with failedCount := 0, failedTTL := none }

/-- `AuthRateLimiter.is_account_locked`: reads `TTL auth:locked:<uid>`.
Missing key (`-2`) means not locked; a key without expiry (`-1`) is treated
as locked for the full lockout duration; otherwise locked with the remaining
TTL. -/
def is_account_locked (st : LockoutStore) : Bool × Int :=
  match st.lockout with
  | none => (false, 0)
  | some (_, ttl) =>
      if ttl = -1 then (true, (ACCOUNT_LOCKOUT_MINUTES : Int) * 60)
      else (true, ttl)

/-! ## Refresh-token repository (`RefreshTokenRepositoryImpl`) -/

/-- `RefreshToken` entity (`src/domain/entities.py`): `id`, `user_id`,
`token_hash`, `expires_at`, `revoked` (default `False`). UUIDs are `String`,
`expires_at` is epoch seconds. -/
structure RefreshTokenRec where
  id : Nat
  user_id : String
  token_hash : String
  expires_at : Int
  revoked : Bool
  deriving DecidableEq, Repr

/-- The refresh-token table, in insertion order (rows are never physically
deleted by this repository). -/
abbrev TokenRepo := List RefreshTokenRec

/-- `RefreshTokenRepositoryImpl.create`: inserts a new row built from the
entity. -/
def repoCreate (repo : TokenRepo) (r : RefreshTokenRec) : TokenRepo :=
  repo ++ [r]

/-- The SQL predicate of `get_by_token_hash`:
`token_hash == h AND revoked IS FALSE AND expires_at > utc_now()`. -/
def usableRow (h : String) (now : Int) (r : RefreshTokenRec) : Bool :=
  r.token_hash == h && r.revoked == false && decide (now < r.expires_at)

/-- `RefreshTokenRepositoryImpl.get_by_token_hash`: select the row with that
digest that is neither revoked nor expired (`scalar_one_or_none`; the digest
is unique in practice, so the first match models the single row). -/
def get_by_token_hash (repo : TokenRepo) (h : String) (now : Int) :
    Option RefreshTokenRec :=
  repo.find? (usableRow h now)

/-- `RefreshTokenRepositoryImpl.revoke_by_token_hash`:
`UPDATE ... SET revoked = TRUE WHERE token_hash = h`. -/
def revoke_by_token_hash (repo : TokenRepo) (h : String) : TokenRepo :=
  repo.map (fun r => if r.token_hash == h then { r with revoked := true } else r)

/-- `RefreshTokenRepositoryImpl.revoke_by_user_id`:
`UPDATE ... SET revoked = TRUE WHERE user_id = uid`. -/
def revoke_by_user_id (repo : TokenRepo) (uid : String) : TokenRepo :=
  repo.map (fun r => if r.user_id == uid then { r with revoked := true } else r)

/-- One mutating call of the repository interface (`create`,
`revoke_by_token_hash`, `revoke_by_user_id` are the only writers). -/
inductive RepoOp where
  | create (r : RefreshTokenRec)
  | revokeByTokenHash (h : String)
  | revokeByUserId (uid : String)
  deriving DecidableEq, Repr

/-- Interpret one repository operation. -/
def applyOp (op : RepoOp) (repo : TokenRepo) : TokenRepo :=
  match op with
  | .create r => repoCreate repo r
  | .revokeByTokenHash h => revoke_by_token_hash repo h
  | .revokeByUserId uid => revoke_by_user_id repo uid

/-- Interpret a sequence of repository operations, oldest first. -/
def applyOps (ops : List RepoOp) (repo : TokenRepo) : TokenRepo :=
  ops.foldl (fun acc op => applyOp op acc) repo

/-! ## Token codec (`JWTProvider.verify_token`) -/

/-- Decoded claim set of a token: `sub`, `exp`, `type`, optional `nbf`
(each may be absent in a hostile token). -/
structure Payload where
  sub : Option String
  exp : Option Int
  type : Option String
  nbf : Option Int
  deriving DecidableEq, Repr

/-- A presented token string, abstracted to what `jose.jwt.decode` can see:
whether its signature verifies under the configured secret and algorithm,
and the claims it carries. -/
structure Token where
  sigValid : Bool
  payload : Payload
  deriving DecidableEq, Repr

/-- Errors of `jose.jwt.decode`: `ExpiredSignatureError` (a token whose `exp`
is in the past) or any other `JWTError` (bad signature, `nbf` in the future —
`JWTClaimsError` is a `JWTError`). -/
inductive JoseErr where
  | expiredSignature
  | jwtError (msg : String)
  deriving DecidableEq, Repr

/-- `jose.jwt.decode(token, key, algorithms)`: verify the signature, then
validate the registered claims it knows about with zero leeway — `nbf`
(fails when `nbf > now`) and `exp` (fails when `exp < now`); absent claims
are skipped at this layer. -/
def joseDecode (now : Int) (t : Token) : Except JoseErr Payload :=
  if t.sigValid = false then
    .error (.jwtError "Signature verification failed.")
  else
    match t.payload.nbf with
    | some nbf =>
        if now < nbf then .error (.jwtError "The token is not yet valid (nbf)")
        else match t.payload.exp with
          | some e => if e < now then .error .expiredSignature else .ok t.payload
          | none => .ok t.payload
    | none =>
        match t.payload.exp with
        | some e => if e < now then .error .expiredSignature else .ok t.payload
        | none => .ok t.payload

/-- `JWTProvider.verify_token(token, token_type)`: decode, require the claims
`sub`, `exp`, `type`, require `type == token_type`, reject `now > exp`,
reject a present `nbf` with `now < nbf`; the two jose exceptions are mapped
to `AuthenticationError`s. Returns the payload on success. -/
def verify_token (now : Int) (t : Token) (token_type : String) :
    Except String Payload :=
  match joseDecode now t with
  | .error .expiredSignature => .error "Token has expired"
  | .error (.jwtError m) => .error ("Could not validate credentials: " ++ m)
  | .ok payload =>
    if ¬ (payload.sub.isSome ∧ payload.exp.isSome ∧ payload.type.isSome) then
      .error "Token missing required claims"
    else if payload.type ≠ some token_type then
      .error ("Invalid token type. Expected " ++ token_type)
    else
      match payload.exp with
      | none => .error "Token missing expiration"
      | some e =>
        if e < now then .error "Token has expired"
        else
          match payload.nbf with
          | some nbf =>
              if now < nbf then .error "Token not yet valid" else .ok payload
          | none => .ok payload

/-! ## Auth service (`AuthService`) -/

/-- `User` entity (`src/domain/entities.py`), the fields the auth flows
read. -/
structure User where
  id : String
  email : String
  password_hash : String
  is_active : Bool
  deriving DecidableEq, Repr

/-- `User.can_authenticate`. -/
def User.can_authenticate (u : User) : Bool := u.is_active

/-- The two settings the token flows read (`refresh_token_expire_days`,
`access_token_expire_minutes`). -/
structure Settings where
  refresh_token_expire_days : Int
  access_token_expire_minutes : Int
  deriving DecidableEq, Repr

/-- `AuthTokens` named tuple returned by `login` and
`refresh_access_token`. -/
structure AuthTokens where
  access_token : String
  refresh_token : String
  token_type : String
  expires_in : Int
  deriving DecidableEq, Repr

/-- The generic credential failure, raised identically for an unknown email
and for a wrong password. -/
def invalidCredentialsMsg : String := "Invalid email or password"

/-- The lockout message of the pre-password check, which interpolates the
remaining TTL: `lockout_remaining // 60` minutes. -/
def lockoutRemainingMsg (lockout_remaining : Int) : String :=
  "Account locked due to too many failed login attempts. " ++
    "Please try again in " ++ toString (lockout_remaining / 60) ++ " minute(s)."

/-- The lockout message raised when this very attempt trips the threshold,
which interpolates `ACCOUNT_LOCKOUT_MINUTES`. -/
def lockoutJustLockedMsg : String :=
  "Account locked due to too many failed login attempts. " ++
    "Please try again in " ++ toString ACCOUNT_LOCKOUT_MINUTES ++ " minutes."

/-- What `AuthService.login` leaves behind: its outcome, whether
`password_utils.verify_password` was ever evaluated on this path, and the
final lockout-store and token-repository states. -/
structure LoginOut where
  result : Except DomainError AuthTokens
  passwordChecked : Bool
  lock : LockoutStore
  repo : TokenRepo
  deriving Repr

/-- `AuthService.login(email, password, client_ip)`.

Collaborators are explicit: `rl` — whether a rate limiter is configured;
`user?` — the result of `user_repo.get_by_email(email)`; `lock` — the redis
lockout state for that user's id; `verify_password` — the password checker;
`access_token`/`refresh_token` — the strings `jwt_provider.create_*` mint on
this call; `sha256` — the digest function; `freshId` — the id of the row the
repository inserts; `now` — `AuthService._utcnow()` as epoch seconds.

Control flow is the source's: lockout check (only when a rate limiter is
configured and the user exists) before any password comparison; unknown user
and wrong password raise the same generic error; a wrong password records a
failed attempt and raises the lockout message instead when that attempt trips
the threshold; inactive accounts are rejected; on success the failed-login
counter is reset, tokens are minted and the refresh digest is persisted with
`expires_at = now + refresh_token_expire_days` (in seconds). -/
def login (rl : Bool) (user? : Option User) (lock : LockoutStore)
    (verify_password : String → String → Bool) (password : String)
    (access_token refresh_token : String) (sha256 : String → String)
    (freshId : Nat) (now : Int) (settings : Settings) (repo : TokenRepo) :
    LoginOut :=
  match user? with
  | none =>
      { result := .error (.authentication invalidCredentialsMsg)
        passwordChecked := false, lock := lock, repo := repo }
  | some user =>
      if rl ∧ (is_account_locked lock).1 = true then
        { result := .error (.authentication
            (lockoutRemainingMsg (is_account_locked lock).2))
          passwordChecked := false, lock := lock, repo := repo }
      else
        let pwOk := verify_password password user.password_hash
        if pwOk = false then
          if rl then
            let rec_out := record_failed_login lock
            let lock' := rec_out.1
            let should_lock := rec_out.2.2
            if should_lock then
              { result := .error (.authentication lockoutJustLockedMsg)
                passwordChecked := true, lock := lock', repo := repo }
            else
              { result := .error (.authentication invalidCredentialsMsg)
                passwordChecked := true, lock := lock', repo := repo }
          else
            { result := .error (.authentication invalidCredentialsMsg)
              passwordChecked := true, lock := lock, repo := repo }
        else if user.can_authenticate = false then
          { result := .error (.authentication "Account is not active")
            passwordChecked := true, lock := lock, repo := repo }
        else
          let lock' := if rl then reset_failed_login lock else lock
          let token_hash := sha256 refresh_token
          let entity : RefreshTokenRec :=
            { id := freshId, user_id := user.id, token_hash := token_hash
              expires_at := now + settings.refresh_token_expire_days * 86400
              revoked := false }
          { result := .ok
              { access_token := access_token, refresh_token := refresh_token
                token_type := "Bearer"
                expires_in := settings.access_token_expire_minutes * 60 }
            passwordChecked := true, lock := lock'
            repo := repoCreate repo entity }

/-- `AuthService.refresh_access_token(refresh_token)`.

`tok` is the presented raw token as seen by the codec, `rawSub` the string
`payload["sub"]` parses to (UUID parsing kept abstract: `sub?` maps the claim
to the parsed id). The body follows the source: verify as a refresh-kind
token, digest the raw string, look the digest up (`_stored_token` — bound and
never consulted), revoke by digest, mint a new pair, persist the new digest. -/
def refresh_access_token (now : Int) (tok : Token)
    (raw : String) (sha256 : String → String)
    (new_access new_refresh : String) (freshId : Nat)
    (settings : Settings) (repo : TokenRepo) :
    Except DomainError AuthTokens × TokenRepo :=
  match verify_token now tok "refresh" with
  | .error m => (.error (.authentication m), repo)
  | .ok payload =>
      let user_id := payload.sub.getD ""
      let token_hash := sha256 raw
      let _stored_token := get_by_token_hash repo token_hash now
      let repo1 := revoke_by_token_hash repo token_hash
      let new_token_hash := sha256 new_refresh
      let entity : RefreshTokenRec :=
        { id := freshId, user_id := user_id, token_hash := new_token_hash
          expires_at := now + settings.refresh_token_expire_days * 86400
          revoked := false }
      let repo2 := repoCreate repo1 entity
      (.ok { access_token := new_access, refresh_token := new_refresh
             token_type := "Bearer"
             expires_in := settings.access_token_expire_minutes * 60 },
       repo2)

/-- `AuthService.change_password(user_id, current_password, new_password)`.
`user?` is `user_repo.get_by_id(user_id)`; `hash_password` the one-way hash.
On success the password hash is updated, the user persisted, and every
refresh token of the user revoked. -/
def change_password (user? : Option User)
    (verify_password : String → String → Bool)
    (current_password new_password : String)
    (hash_password : String → String) (repo : TokenRepo) :
    Except DomainError User × TokenRepo :=
  match user? with
  | none => (.error (.validation "User not found"), repo)
  | some user =>
      if verify_password current_password user.password_hash = false then
        (.error (.authentication "Current password is incorrect"), repo)
      else if new_password = "" ∨ new_password.length < 8 then
        (.error (.validation "Password must be at least 8 characters"), repo)
      else if new_password = current_password then
        (.error (.validation
          "New password must be different from current password"), repo)
      else
        let new_password_hash := hash_password new_password
        let updated_user := { user with password_hash := new_password_hash }
        (.ok updated_user, revoke_by_user_id repo user.id)

/-! ## Spec-side definitions and small observers used by the theorems -/

/-- Spec-side count for the sliding window (claim C2's words): the number of
window entries for the key after pruning entries with timestamp ≤ now −
window, before the current attempt is added. -/
def specPrunedCount (st : ZKeyState) (now window : Int) : Nat :=
  (st.entries.filter (fun t => ¬ t ≤ now - window)).card

/-- Spec-side rejection condition for `verify_token` (claim C6's words):
signature invalid, or `sub`/`exp`/`type` missing, or the `type` claim differs
from the expected kind, or the current time is past `exp`, or an `nbf` claim
is present and the current time is before it. -/
def verifyRejects (now : Int) (t : Token) (k : String) : Bool :=
  !t.sigValid || t.payload.sub.isNone || t.payload.exp.isNone ||
    t.payload.type.isNone || decide (t.payload.type ≠ some k) ||
    (match t.payload.exp with | some e => decide (now > e) | none => false) ||
    (match t.payload.nbf with | some n => decide (now < n) | none => false)

/-- Observer: the `revoked` flag of the repository row at position `i`
(`false` when there is no such row). -/
def revokedAt (repo : TokenRepo) (i : Nat) : Bool :=
  match repo[i]? with
  | some r => r.revoked
  | none => false

/-- Observer: the `id` of the repository row at position `i`. -/
def idAt (repo : TokenRepo) (i : Nat) : Option Nat :=
  repo[i]?.map (fun r => r.id)

/-! ## Theorems -/

/-- C7: when the shared store is unreachable (a store operation raises), a
`checkAndRecord` call fails open — it returns `allowed = true` (with
`remaining = limit` and a reset computed from a fresh clock read) instead of
raising an error or denying the request, and touches no state. -/
theorem check_rate_limit_fail_open (st : ZKeyState) (now now2 : Int)
    (limit : Nat) (window : Int) :
    check_rate_limit false st now limit window now2 =
      (st, { is_allowed := true, remaining := (limit : Int)
             reset_time := now2 + window }) := by
  rfl

/-- C8: `recordFailedLogin` increments the per-identity failed-login counter
and sets its TTL to one hour (3600 s); when the incremented count reaches the
threshold of 5 it sets the lockout flag with TTL equal to the 15-minute
lockout duration (900 s) and returns `didLock = true`; when the count is
below the threshold it leaves the lockout flag untouched and returns
`didLock = false`. -/
theorem record_failed_login_spec (st : LockoutStore) :
    (record_failed_login st).2.1 = st.failedCount + 1 ∧
    (record_failed_login st).1.failedCount = st.failedCount + 1 ∧
    (record_failed_login st).1.failedTTL = some 3600 ∧
    (st.failedCount + 1 = FAILED_LOGIN_THRESHOLD →
      (record_failed_login st).2.2 = true ∧
      (record_failed_login st).1.lockout = some ("locked", 900)) ∧
    (st.failedCount + 1 < FAILED_LOGIN_THRESHOLD →
      (record_failed_login st).2.2 = false ∧
      (record_failed_login st).1.lockout = st.lockout) := by
  by_cases h : 4 ≤ st.failedCount
  · simp [record_failed_login, h, FAILED_LOGIN_THRESHOLD,
      ACCOUNT_LOCKOUT_MINUTES]
  · simp [record_failed_login, h, FAILED_LOGIN_THRESHOLD,
      ACCOUNT_LOCKOUT_MINUTES]
    omega

/-- Closed instance of `record_failed_login_spec` at a store with four prior
failures: the fifth failure locks with the full 900-second TTL. -/
theorem record_failed_login_spec_witness :
    (record_failed_login ⟨4, some 120, none⟩).2.1 = 4 + 1 ∧
    (record_failed_login ⟨4, some 120, none⟩).1.failedCount = 4 + 1 ∧
    (record_failed_login ⟨4, some 120, none⟩).1.failedTTL = some 3600 ∧
    (4 + 1 = FAILED_LOGIN_THRESHOLD →
      (record_failed_login ⟨4, some 120, none⟩).2.2 = true ∧
      (record_failed_login ⟨4, some 120, none⟩).1.lockout =
        some ("locked", 900)) ∧
    (4 + 1 < FAILED_LOGIN_THRESHOLD →
      (record_failed_login ⟨4, some 120, none⟩).2.2 = false ∧
      (record_failed_login ⟨4, some 120, none⟩).1.lockout = none) :=
  record_failed_login_spec ⟨4, some 120, none⟩

/-- C10: every failed attempt whose incremented count is at or beyond the
threshold returns `didLock = true` and rewrites the lockout flag with a fresh
full 15-minute TTL (900 s), regardless of what the flag held before — each
additional failure past the threshold restarts the lockout. -/
theorem record_failed_login_relocks (st : LockoutStore)
    (h : FAILED_LOGIN_THRESHOLD ≤ st.failedCount + 1) :
    (record_failed_login st).2.2 = true ∧
    (record_failed_login st).1.lockout = some ("locked", 900) := by
  simp [record_failed_login, h, ACCOUNT_LOCKOUT_MINUTES]

/-- Closed instance of `record_failed_login_relocks`: an eighth failure while
an old lockout has only 12 s left rewrites the flag back to 900 s. -/
theorem record_failed_login_relocks_witness :
    (record_failed_login ⟨7, some 100, some ("locked", 12)⟩).2.2 = true ∧
    (record_failed_login ⟨7, some 100, some ("locked", 12)⟩).1.lockout =
      some ("locked", 900) :=
  record_failed_login_relocks ⟨7, some 100, some ("locked", 12)⟩ (by decide)

/-- Helper: on timestamps that are all nonnegative (every entry was written
from `time.time()`), the code's prune `ZREMRANGEBYSCORE key 0 (now-window)`
removes exactly the entries with timestamp ≤ now − window. -/
theorem zremrangebyscore_eq_filter (s : Finset Int) (hi : Int)
    (hnonneg : ∀ t ∈ s, 0 ≤ t) :
    zremrangebyscore 0 hi s = s.filter (fun t => ¬ t ≤ hi) := by
  unfold zremrangebyscore
  apply Finset.filter_congr
  intro x hx
  have h0 := hnonneg x hx
  simp [h0]

/-- C2: a reachable `checkAndRecord(key, limit, window)` call, with `count`
the number of window entries left after pruning those with timestamp ≤ now −
window (before the current attempt is added), adds an entry timestamped
`now`, sets the key's TTL to `window`, and returns `allowed = (count <
limit)`, `remaining = max(0, limit − count − 1)` and `resetEpoch = now +
window`.  The hypothesis says every stored timestamp is nonnegative, which
holds for every reachable store state since entries are written from the
clock. -/
theorem check_rate_limit_spec (st : ZKeyState) (now now2 : Int)
    (limit : Nat) (window : Int)
    (hnonneg : ∀ t ∈ st.entries, 0 ≤ t) :
    (check_rate_limit true st now limit window now2).1.entries
        = insert now (st.entries.filter (fun t => ¬ t ≤ now - window)) ∧
    (check_rate_limit true st now limit window now2).1.ttl = some window ∧
    (check_rate_limit true st now limit window now2).2.is_allowed
        = decide (specPrunedCount st now window < limit) ∧
    (check_rate_limit true st now limit window now2).2.remaining
        = max 0 ((limit : Int) - specPrunedCount st now window - 1) ∧
    (check_rate_limit true st now limit window now2).2.reset_time
        = now + window := by
  have hpr := zremrangebyscore_eq_filter st.entries (now - window) hnonneg
  simp [check_rate_limit, zadd, zcard, specPrunedCount, hpr]

/-- Closed instance of `check_rate_limit_spec`: two entries at 10 and 30,
now = 70, window = 60 s, limit 5 — the entry at 10 is pruned, the count
before adding is 1, the call is allowed with 3 remaining and reset at 130. -/
theorem check_rate_limit_spec_witness :
    (check_rate_limit true ⟨{10, 30}, none⟩ 70 5 60 0).1.entries
        = insert 70 (({10, 30} : Finset Int).filter (fun t => ¬ t ≤ 70 - 60)) ∧
    (check_rate_limit true ⟨{10, 30}, none⟩ 70 5 60 0).1.ttl = some 60 ∧
    (check_rate_limit true ⟨{10, 30}, none⟩ 70 5 60 0).2.is_allowed
        = decide (specPrunedCount ⟨{10, 30}, none⟩ 70 60 < 5) ∧
    (check_rate_limit true ⟨{10, 30}, none⟩ 70 5 60 0).2.remaining
        = max 0 ((5 : Int) - specPrunedCount ⟨{10, 30}, none⟩ 70 60 - 1) ∧
    (check_rate_limit true ⟨{10, 30}, none⟩ 70 5 60 0).2.reset_time
        = 70 + 60 :=
  check_rate_limit_spec ⟨{10, 30}, none⟩ 70 0 5 60 (by decide)

/-- Helper: a position whose row is revoked is inside the table. -/
theorem revokedAt_some (repo : TokenRepo) (i : Nat)
    (hrev : revokedAt repo i = true) :
    ∃ r, repo[i]? = some r ∧ r.revoked = true := by
  unfold revokedAt at hrev
  cases h : repo[i]? with
  | none => rw [h] at hrev; simp at hrev
  | some r => rw [h] at hrev; exact ⟨r, rfl, hrev⟩

/-- Helper: one repository operation keeps a revoked row revoked and keeps
the row's identity: `create` only appends a fresh row, and both revoke
operations only ever set `revoked := true`. -/
theorem applyOp_revoked_mono (op : RepoOp) (repo : TokenRepo) (i : Nat)
    (hrev : revokedAt repo i = true) :
    idAt (applyOp op repo) i = idAt repo i ∧
      revokedAt (applyOp op repo) i = true := by
  obtain ⟨r, hr, hrr⟩ := revokedAt_some repo i hrev
  have hlen : i < repo.length := by
    rw [List.getElem?_eq_some] at hr
    exact hr.1
  cases op with
  | create r' =>
      unfold applyOp repoCreate idAt revokedAt
      rw [List.getElem?_append]
      simp [hlen, hr, hrr]
  | revokeByTokenHash h' =>
      unfold applyOp revoke_by_token_hash idAt revokedAt
      rw [List.getElem?_map, hr]
      by_cases hc : r.token_hash = h' <;> simp [hc, hrr]
  | revokeByUserId uid =>
      unfold applyOp revoke_by_user_id idAt revokedAt
      rw [List.getElem?_map, hr]
      by_cases hc : r.user_id = uid <;> simp [hc, hrr]

/-- C9: revocation is monotone across the repository interface — after any
sequence of `create` / `revoke_by_token_hash` / `revoke_by_user_id` calls,
a row that was revoked is still present, with the same `id`, and still
revoked: no operation ever flips `revoked` from true back to false. -/
theorem revoked_is_monotone (ops : List RepoOp) (repo : TokenRepo) (i : Nat)
    (hrev : revokedAt repo i = true) :
    idAt (applyOps ops repo) i = idAt repo i ∧
      revokedAt (applyOps ops repo) i = true := by
  induction ops generalizing repo with
  | nil => exact ⟨rfl, hrev⟩
  | cons op rest ih =>
      have hstep := applyOp_revoked_mono op repo i hrev
      have hrest := ih (applyOp op repo) hstep.2
      refine ⟨?_, hrest.2⟩
      calc idAt (applyOps (op :: rest) repo) i
          = idAt (applyOps rest (applyOp op repo)) i := rfl
        _ = idAt (applyOp op repo) i := hrest.1
        _ = idAt repo i := hstep.1

/-- Closed instance of `revoked_is_monotone`: a revoked row (id 0) survives a
later insert, a revoke-by-digest of another row and a revoke-by-user sweep,
still revoked and still row id 0. -/
theorem revoked_is_monotone_witness :
    idAt (applyOps
        [RepoOp.create ⟨1, "u1", "h2", 500, false⟩,
         RepoOp.revokeByTokenHash "h2",
         RepoOp.revokeByUserId "u2"]
        [⟨0, "u1", "h1", 400, true⟩]) 0
      = idAt [⟨0, "u1", "h1", 400, true⟩] 0 ∧
    revokedAt (applyOps
        [RepoOp.create ⟨1, "u1", "h2", 500, false⟩,
         RepoOp.revokeByTokenHash "h2",
         RepoOp.revokeByUserId "u2"]
        [⟨0, "u1", "h1", 400, true⟩]) 0 = true :=
  revoked_is_monotone
    [RepoOp.create ⟨1, "u1", "h2", 500, false⟩,
     RepoOp.revokeByTokenHash "h2",
     RepoOp.revokeByUserId "u2"]
    [⟨0, "u1", "h1", 400, true⟩] 0 (by decide)

/-- Helper: after `revoke_by_user_id`, the row at any position that belonged
to that user is revoked. -/
theorem revokedAt_revoke_by_user_id (repo : TokenRepo) (uid : String)
    (i : Nat) (h : i < repo.length) (hu : (repo.get ⟨i, h⟩).user_id = uid) :
    revokedAt (revoke_by_user_id repo uid) i = true := by
  unfold revokedAt revoke_by_user_id
  rw [List.getElem?_map, List.getElem?_eq_getElem h]
  simp only [List.get_eq_getElem] at hu
  simp [hu]

/-- Helper: when every row carrying a digest belongs to one user, revoking
all of that user's rows makes `get_by_token_hash` miss that digest. -/
theorem get_by_token_hash_after_revoke_by_user_id (repo : TokenRepo)
    (uid hsh : String) (now : Int)
    (hall : ∀ r ∈ repo, r.token_hash = hsh → r.user_id = uid) :
    get_by_token_hash (revoke_by_user_id repo uid) hsh now = none := by
  unfold get_by_token_hash revoke_by_user_id
  rw [List.find?_eq_none]
  intro x hx
  rw [List.mem_map] at hx
  obtain ⟨r, hr, rfl⟩ := hx
  by_cases hc : r.user_id = uid
  · simp [hc, usableRow]
  · by_cases hh : r.token_hash = hsh
    · exact absurd (hall r hr hh) hc
    · simp [hc, usableRow, hh]

/-- C5: when `change_password` succeeds, every refresh-token row previously
created for that user ends up with `revoked = true`, and consequently
`get_by_token_hash` (the `findUsable` lookup) on the digest of any refresh
token previously issued to that user returns none (the digest hypothesis says
every row carrying that digest belongs to the user, i.e. the digest was
issued to them). -/
theorem change_password_revokes_sessions (user : User)
    (verify_password : String → String → Bool)
    (current_password new_password : String)
    (hash_password : String → String) (repo : TokenRepo) (u' : User)
    (hok : (change_password (some user) verify_password current_password
        new_password hash_password repo).1 = .ok u') :
    (∀ i, ∀ h : i < repo.length, (repo.get ⟨i, h⟩).user_id = user.id →
        revokedAt (change_password (some user) verify_password
          current_password new_password hash_password repo).2 i = true) ∧
    (∀ hsh : String, ∀ now : Int,
        (∀ r ∈ repo, r.token_hash = hsh → r.user_id = user.id) →
        get_by_token_hash (change_password (some user) verify_password
          current_password new_password hash_password repo).2 hsh now
          = none) := by
  have hrepo : (change_password (some user) verify_password current_password
      new_password hash_password repo).2 = revoke_by_user_id repo user.id := by
    unfold change_password at hok ⊢
    by_cases h1 : verify_password current_password user.password_hash = false
    · simp [h1] at hok
    · by_cases h2 : new_password = "" ∨ new_password.length < 8
      · simp [h1, h2] at hok
      · by_cases h3 : new_password = current_password
        · simp [h1, h2, h3] at hok
          split at hok <;> simp at hok
        · simp [h1, h2, h3]
  constructor
  · intro i h hu
    rw [hrepo]
    exact revokedAt_revoke_by_user_id repo user.id i h hu
  · intro hsh now hall
    rw [hrepo]
    exact get_by_token_hash_after_revoke_by_user_id repo user.id hsh now hall

/-- Closed instance of `change_password_revokes_sessions`: a successful
password change makes the user's standing refresh-token digest unusable. -/
theorem change_password_revokes_sessions_witness :
    get_by_token_hash
      (change_password (some ⟨"u1", "a@x.com", "oldpass123", true⟩)
        (fun c h => c == h) "oldpass123" "newpass12" (fun s => s)
        [⟨0, "u1", "h1", 1000, false⟩]).2 "h1" 5 = none :=
  (change_password_revokes_sessions ⟨"u1", "a@x.com", "oldpass123", true⟩
      (fun c h => c == h) "oldpass123" "newpass12" (fun s => s)
      [⟨0, "u1", "h1", 1000, false⟩]
      ⟨"u1", "a@x.com", "newpass12", true⟩ (by rfl)).2 "h1" 5 (by decide)

/-- C3: with a rate limiter configured, a login for an existing, currently
locked user fails with the lockout `AuthenticationError` carrying the
remaining wait time, before any password comparison — the outcome is the
same for every password and password checker (in particular the correct
one), and nothing is recorded or persisted. -/
theorem login_lockout_precedes_password (u : User) (lock : LockoutStore)
    (verify_password : String → String → Bool) (password : String)
    (access_token refresh_token : String) (sha256 : String → String)
    (freshId : Nat) (now : Int) (settings : Settings) (repo : TokenRepo)
    (hlocked : (is_account_locked lock).1 = true) :
    login true (some u) lock verify_password password access_token
        refresh_token sha256 freshId now settings repo =
      { result := .error (.authentication
          (lockoutRemainingMsg (is_account_locked lock).2))
        passwordChecked := false, lock := lock, repo := repo } := by
  simp [login, hlocked]

/-- Closed instance of `login_lockout_precedes_password`: the password
offered is the *correct* one (the checker compares for equality and the
password equals the stored hash under it), yet the locked account yields the
lockout message with the 300 s of remaining TTL, and the password is never
compared. -/
theorem login_lockout_precedes_password_witness :
    login true (some ⟨"u1", "a@x.com", "pw12345678", true⟩)
        ⟨5, some 1000, some ("locked", 300)⟩
        (fun p h => p == h) "pw12345678" "acc" "ref" (fun s => s)
        1 100 ⟨30, 30⟩ [] =
      { result := .error (.authentication
          (lockoutRemainingMsg
            (is_account_locked ⟨5, some 1000, some ("locked", 300)⟩).2))
        passwordChecked := false
        lock := ⟨5, some 1000, some ("locked", 300)⟩, repo := [] } :=
  login_lockout_precedes_password ⟨"u1", "a@x.com", "pw12345678", true⟩
    ⟨5, some 1000, some ("locked", 300)⟩ (fun p h => p == h) "pw12345678"
    "acc" "ref" (fun s => s) 1 100 ⟨30, 30⟩ [] (by rfl)

/-- C4: a login with a nonexistent email and a login for an existing user
with a wrong password (one that does not trip the lockout threshold, the
account not being locked) fail with `AuthenticationError`s carrying the
identical message `"Invalid email or password"`, so the two cases are
indistinguishable to the caller. -/
theorem login_invalid_credentials_indistinguishable
    (rl : Bool) (u : User) (lock lock2 : LockoutStore)
    (verify_password : String → String → Bool) (password : String)
    (access_token refresh_token : String) (sha256 : String → String)
    (freshId : Nat) (now : Int) (settings : Settings) (repo : TokenRepo)
    (hnl : (is_account_locked lock2).1 = false)
    (hwrong : verify_password password u.password_hash = false)
    (hbelow : lock2.failedCount + 1 < FAILED_LOGIN_THRESHOLD) :
    (login rl none lock verify_password password access_token refresh_token
        sha256 freshId now settings repo).result
      = .error (.authentication invalidCredentialsMsg) ∧
    (login true (some u) lock2 verify_password password access_token
        refresh_token sha256 freshId now settings repo).result
      = .error (.authentication invalidCredentialsMsg) := by
  constructor
  · simp [login]
  · have h4 : ¬ (4 ≤ lock2.failedCount) := by
      unfold FAILED_LOGIN_THRESHOLD at hbelow
      omega
    simp [login, hnl, hwrong, record_failed_login, FAILED_LOGIN_THRESHOLD, h4]

/-- Closed instance of `login_invalid_credentials_indistinguishable`:
unknown email on one side, existing user with a wrong password and a clean
lockout store on the other — the same generic error. -/
theorem login_invalid_credentials_indistinguishable_witness :
    (login true none ⟨0, none, none⟩ (fun p h => p == h) "wrongpass"
        "acc" "ref" (fun s => s) 1 100 ⟨30, 30⟩ []).result
      = .error (.authentication invalidCredentialsMsg) ∧
    (login true (some ⟨"u1", "a@x.com", "realhash", true⟩) ⟨0, none, none⟩
        (fun p h => p == h) "wrongpass" "acc" "ref" (fun s => s)
        1 100 ⟨30, 30⟩ []).result
      = .error (.authentication invalidCredentialsMsg) :=
  login_invalid_credentials_indistinguishable true
    ⟨"u1", "a@x.com", "realhash", true⟩ ⟨0, none, none⟩ ⟨0, none, none⟩
    (fun p h => p == h) "wrongpass" "acc" "ref" (fun s => s) 1 100 ⟨30, 30⟩ []
    (by rfl) (by decide) (by decide)

/-- C6: `verify(token, expectedKind)` fails with an `AuthenticationError` if
and only if the signature is invalid, one of `sub`/`exp`/`type` is missing,
the `type` claim differs from the expected kind, the current time is past
`exp`, or an `nbf` claim is present with the current time before it; in
every other case it returns the decoded claims. -/
theorem verify_token_error_iff (now : Int) (t : Token) (k : String) :
    ((∃ m, verify_token now t k = .error m) ↔ verifyRejects now t k = true) ∧
    (verifyRejects now t k = false → verify_token now t k = .ok t.payload) := by
  obtain ⟨sig, su, ex, ty, nb⟩ := t
  cases sig <;> cases su <;> cases ex <;> cases ty <;> cases nb <;>
    simp [verify_token, joseDecode, verifyRejects, ite_eq_iff] <;>
    split_ifs <;>
    simp_all [ite_eq_iff, exists_or] <;>
    tauto

/-- Closed instance of `verify_token_error_iff`: a signed, unexpired token of
the expected kind with all required claims is accepted and returns its
payload. -/
theorem verify_token_error_iff_witness :
    verify_token 50 ⟨true, some "u1", some 100, some "access", none⟩ "access"
      = .ok ⟨some "u1", some 100, some "access", none⟩ :=
  (verify_token_error_iff 50
      ⟨true, some "u1", some 100, some "access", none⟩ "access").2 (by rfl)

/-- C1 — the code violates the claim: a refresh token that has already been
rotated once is accepted a second time.  `refresh_access_token` binds the
store lookup to the unused `_stored_token` and never checks it, so after the
first rotation (which revokes the digest, making `get_by_token_hash` return
none) a second presentation of the same raw token, whose JWT is still
well-formed and unexpired, again returns a fresh access+refresh pair instead
of failing with `AuthenticationError`. -/
theorem refresh_reuse_not_rejected :
    (refresh_access_token 100
        ⟨true, some "u1", some 9999, some "refresh", none⟩
        "rt1" (fun s => s ++ ".sha") "acc2" "rt2" 1 ⟨30, 30⟩
        [⟨0, "u1", "rt1.sha", 5000, false⟩]).1
      = .ok { access_token := "acc2", refresh_token := "rt2"
              token_type := "Bearer", expires_in := 1800 } ∧
    get_by_token_hash
      (refresh_access_token 100
        ⟨true, some "u1", some 9999, some "refresh", none⟩
        "rt1" (fun s => s ++ ".sha") "acc2" "rt2" 1 ⟨30, 30⟩
        [⟨0, "u1", "rt1.sha", 5000, false⟩]).2 "rt1.sha" 101 = none ∧
    (refresh_access_token 101
        ⟨true, some "u1", some 9999, some "refresh", none⟩
        "rt1" (fun s => s ++ ".sha") "acc3" "rt3" 2 ⟨30, 30⟩
        (refresh_access_token 100
          ⟨true, some "u1", some 9999, some "refresh", none⟩
          "rt1" (fun s => s ++ ".sha") "acc2" "rt2" 1 ⟨30, 30⟩
          [⟨0, "u1", "rt1.sha", 5000, false⟩]).2).1
      = .ok { access_token := "acc3", refresh_token := "rt3"
              token_type := "Bearer", expires_in := 1800 } := by
  refine ⟨?_, ?_, ?_⟩ <;> rfl

end Tequipy
